import Mathlib

/-
Shallow embedding of src/flash-tool.c (ftdi-nand-flash-tool), a NAND flash
dumper/programmer/eraser driving the chip over two FTDI bit-bang GPIO ports.

Modelling conventions:
- The two 8-bit ports are modelled by the process-global shadows
  controlbus_value and iobus_value (both bytes, kept as Nat, always < 256 in
  reachable states) plus the I/O-port direction, collected in BusState.
- Every transport interaction is recorded in an ordered Event trace:
  ctrlWrite b   models ftdi_write_data on the control channel (the byte b),
  ioWrite b     models ftdi_write_data on the I/O channel,
  ioRead        models ftdi_read_pins on the I/O channel,
  setDir d      models ftdi_set_bitmode direction flips of the I/O channel.
- Bytes read from the chip are supplied by oracles (sample : Nat -> Nat gives
  the byte returned by the k-th ftdi_read_pins call of one register read);
  wait_while_busy only reads the RDY input pin and performs no port write, so
  it is modelled as the identity on the bus state (its termination is a
  property of the chip, not of this code).
- C functions returning int are modelled with ret : Int (EXIT_FAILURE = 1).
- The err field of PrimOut records the numeric arguments of the diagnostic
  fprintf on the failure branch of erase_block / program_page (block and
  status byte, resp. page index); the latch primitives print no values.
- In erase_block / program_page the C reads the local status_register even
  when latch_register rejected its precondition and left it uninitialized;
  the model makes that explicit with a junk parameter (vals.headD junk).
-/

namespace FlashTool

/-- Pin masks on the control bus BDBUS0..7, from the C defines. -/
def PIN_CLE : Nat := 0x01

/-- Address Latch Enable pin mask. -/
def PIN_ALE : Nat := 0x02

/-- Chip Enable (active low) pin mask. -/
def PIN_nCE : Nat := 0x04

/-- Write Enable (active low) pin mask. -/
def PIN_nWE : Nat := 0x08

/-- Read Enable (active low) pin mask. -/
def PIN_nRE : Nat := 0x10

/-- Write Protect (active low) pin mask. -/
def PIN_nWP : Nat := 0x20

/-- Ready/Busy input pin mask. -/
def PIN_RDY : Nat := 0x40

/-- Diagnostic LED pin mask. -/
def PIN_LED : Nat := 0x80

/-- Status-register bit 0: pass/fail of the previous program or erase. -/
def STATUSREG_IO0 : Nat := 0x01

/-- Bytes per page including the spare area. -/
def PAGE_SIZE : Nat := 2112

/-- Bytes per page without the spare area. -/
def PAGE_SIZE_NOSPARE : Nat := 2048

/-- Pages per erase block. -/
def PAGE_PER_BLOCK : Nat := 64

/-- Number of blocks on the device. -/
def BLOCK_COUNT : Nat := 2048

/-- Default page count of the device (131072 pages). -/
def DEFAULT_PAGE_COUNT : Nat := 131072

/-- C stdlib EXIT_FAILURE, returned by the latch primitives on a
precondition violation. -/
def EXIT_FAILURE : Int := 1

/-- READ ID command byte. -/
def CMD_READID : Nat := 0x90

/-- Page-read command pair (setup 0x00, confirm 0x30). -/
def CMD_READ1 : Nat × Nat := (0x00, 0x30)

/-- Block-erase command pair (setup 0x60, confirm 0xD0). -/
def CMD_BLOCKERASE : Nat × Nat := (0x60, 0xD0)

/-- READ STATUS command byte. -/
def CMD_READSTATUS : Nat := 0x70

/-- Page-program command pair (serial data input 0x80, confirm 0x10). -/
def CMD_PAGEPROGRAM : Nat × Nat := (0x80, 0x10)

/-- Direction of the I/O port: all-input (bitmask 0x00) or all-output
(bitmask 0xFF), as set by iobus_set_direction. -/
inductive IODir where
  | input : IODir
  | out : IODir
deriving DecidableEq, Repr

/-- One observable transport interaction with the FTDI bridge. -/
inductive Event where
  | ctrlWrite : Nat → Event
  | ioWrite : Nat → Event
  | ioRead : Event
  | setDir : IODir → Event
deriving DecidableEq, Repr

/-- Shadow state of the two GPIO ports: the last byte written to the control
bus (controlbus_value), the last byte written to the I/O bus (iobus_value),
and the current I/O-port direction. -/
structure BusState where
  ctrl : Nat
  io : Nat
  dir : IODir
deriving DecidableEq, Repr

/-- Result of a latch primitive or of a program/erase sequence: C return
code, state after the call, trace of transport events, and the numeric
arguments of the failure-branch fprintf (none when no values are printed). -/
structure PrimOut where
  ret : Int
  s : BusState
  tr : List Event
  err : Option (List Nat)
deriving DecidableEq, Repr

/-- Result of a chip-to-host register read (latch_register) or of the
read-ID / read-page sequences: return code, state, bytes read, trace. -/
structure RegOut where
  ret : Int
  s : BusState
  vals : List Nat
  tr : List Event
deriving DecidableEq, Repr

/-- Result of the inner sampling loop of latch_register. -/
structure LoopOut where
  s : BusState
  vals : List Nat
  tr : List Event
deriving DecidableEq, Repr

/-- Model of controlbus_pin_set: set or clear a pin bit in the control-bus
shadow; no transport I/O happens here. -/
def controlbus_pin_set (s : BusState) (pin : Nat) (val : Bool) : BusState :=
  if val then { s with ctrl := s.ctrl ||| pin }
  else { s with ctrl := s.ctrl &&& (0xFF ^^^ pin) }

/-- Model of wait_while_busy: busy-polls the RDY input bit of the control
port with controlbus_read_input until it is high. It issues no port write
and mutates no shadow, so on the level of written-byte traces it is the
identity; termination is a property of the attached chip. -/
def wait_while_busy (s : BusState) : BusState := s

/-- Model of get_address_cycle_map_x8_toshiba_page: pack (page, column) into
the 5 address-cycle bytes [CA0..7, CA8..15, PA0..7, PA8..15, PA16..23]. -/
def get_address_cycle_map_x8_toshiba_page (page column : Nat) : List Nat :=
  [column &&& 0xFF, (column >>> 8) &&& 0xFF,
   page &&& 0xFF, (page >>> 8) &&& 0xFF, (page >>> 16) &&& 0xFF]

/-- Model of latch_command (flash-tool.c lines 513-556). Precondition check:
nCE low (first if) and nRE high (the C tests the complement, so
controlbus_value &&& PIN_nRE = 0 is the failing case); on violation it
returns EXIT_FAILURE having performed no I/O and no shadow mutation.
Otherwise: CLE high + push, nWE low + push, command byte on the I/O port,
nWE high + push (latching edge), CLE low + push. -/
def latch_command (s : BusState) (command : Nat) : PrimOut :=
  if s.ctrl &&& PIN_nCE ≠ 0 then ⟨EXIT_FAILURE, s, [], none⟩
  else if s.ctrl &&& PIN_nRE = 0 then ⟨EXIT_FAILURE, s, [], none⟩
  else
    let s1 := controlbus_pin_set s PIN_CLE true
    let s2 := controlbus_pin_set s1 PIN_nWE false
    let s3 : BusState := { s2 with io := command }
    let s4 := controlbus_pin_set s3 PIN_nWE true
    let s5 := controlbus_pin_set s4 PIN_CLE false
    ⟨0, s5,
     [Event.ctrlWrite s1.ctrl, Event.ctrlWrite s2.ctrl, Event.ioWrite command,
      Event.ctrlWrite s4.ctrl, Event.ctrlWrite s5.ctrl], none⟩

/-- Shared loop body of latch_address and latch_data_out: pulse nWE low,
place one byte on the I/O port, pulse nWE high (the latching edge). The
optional microsecond delays do not touch the ports. -/
def write_cycle (s : BusState) (b : Nat) : BusState × List Event :=
  let s1 := controlbus_pin_set s PIN_nWE false
  let s2 : BusState := { s1 with io := b }
  let s3 := controlbus_pin_set s2 PIN_nWE true
  (s3, [Event.ctrlWrite s1.ctrl, Event.ioWrite b, Event.ctrlWrite s3.ctrl])

/-- Byte loop shared by latch_address and latch_data_out. -/
def write_loop : BusState → List Nat → BusState × List Event
  | s, [] => (s, [])
  | s, b :: bs =>
    let p := write_cycle s b
    let q := write_loop p.1 bs
    (q.1, p.2 ++ q.2)

/-- Model of latch_address (lines 572-623). Precondition: nCE low, CLE low,
nRE high; on violation EXIT_FAILURE with no I/O. Otherwise ALE high + push,
one write_cycle per address byte, ALE low + push. -/
def latch_address (s : BusState) (address : List Nat) : PrimOut :=
  if s.ctrl &&& PIN_nCE ≠ 0 then ⟨EXIT_FAILURE, s, [], none⟩
  else if s.ctrl &&& PIN_CLE ≠ 0 then ⟨EXIT_FAILURE, s, [], none⟩
  else if s.ctrl &&& PIN_nRE = 0 then ⟨EXIT_FAILURE, s, [], none⟩
  else
    let s1 := controlbus_pin_set s PIN_ALE true
    let p := write_loop s1 address
    let s2 := controlbus_pin_set p.1 PIN_ALE false
    ⟨0, s2, Event.ctrlWrite s1.ctrl :: p.2 ++ [Event.ctrlWrite s2.ctrl], none⟩

/-- Model of latch_data_out (lines 934-955), the host-to-chip serial data
input used by program_page: the same nWE write cycle as latch_address but
with ALE kept low, and with no precondition check whatsoever. -/
def latch_data_out (s : BusState) (data : List Nat) : PrimOut :=
  let p := write_loop s data
  ⟨0, p.1, p.2, none⟩

/-- One iteration of the latch_register sampling loop: nRE low + push,
sample the I/O pins, nRE high + push. -/
def read_cycle (s : BusState) : BusState × List Event :=
  let s1 := controlbus_pin_set s PIN_nRE false
  let s2 := controlbus_pin_set s1 PIN_nRE true
  (s2, [Event.ctrlWrite s1.ctrl, Event.ioRead, Event.ctrlWrite s2.ctrl])

/-- Sampling loop of latch_register; the oracle sample gives the byte the
chip drives for the k-th ftdi_read_pins call. -/
def read_loop : BusState → (Nat → Nat) → Nat → Nat → LoopOut
  | s, _, _, 0 => ⟨s, [], []⟩
  | s, sample, i, n + 1 =>
    let p := read_cycle s
    let q := read_loop p.1 sample (i + 1) n
    ⟨q.s, sample i :: q.vals, p.2 ++ q.tr⟩

/-- Model of latch_register (lines 630-674), the chip-to-host data output
operation. Precondition: nCE low, nWE high (complement test in C), ALE low;
note the C checks CLE nowhere here. On violation EXIT_FAILURE with no I/O.
Otherwise: flip the I/O port to input, run the nRE sampling loop, flip the
I/O port back to output. -/
def latch_register (s : BusState) (sample : Nat → Nat) (reg_length : Nat) : RegOut :=
  if s.ctrl &&& PIN_nCE ≠ 0 then ⟨EXIT_FAILURE, s, [], []⟩
  else if s.ctrl &&& PIN_nWE = 0 then ⟨EXIT_FAILURE, s, [], []⟩
  else if s.ctrl &&& PIN_ALE ≠ 0 then ⟨EXIT_FAILURE, s, [], []⟩
  else
    let s1 : BusState := { s with dir := IODir.input }
    let q := read_loop s1 sample 0 reg_length
    let s2 : BusState := { q.s with dir := IODir.out }
    ⟨0, s2, q.vals, Event.setDir IODir.input :: q.tr ++ [Event.setDir IODir.out]⟩

/-- Model of erase_block (lines 879-932). Note that both controlbus_pin_set
calls on nWP mutate only the shadow: the nWP-high value first reaches the
port inside latch_command's CLE push, and the nWP-low value at the end is
never pushed by this function at all. Return codes of the latch calls are
ignored, exactly as in the C. -/
def erase_block (s : BusState) (sample : Nat → Nat) (junk : Nat) (block : Nat) : PrimOut :=
  let page := block * PAGE_PER_BLOCK
  let s0 := controlbus_pin_set s PIN_nWP true
  let p1 := latch_command s0 CMD_BLOCKERASE.1
  let a := get_address_cycle_map_x8_toshiba_page page 0
  let address := [a.getD 2 0, a.getD 3 0, a.getD 4 0]
  let p2 := latch_address p1.s address
  let p3 := latch_command p2.s CMD_BLOCKERASE.2
  let s3 := wait_while_busy p3.s
  let p4 := latch_command s3 CMD_READSTATUS
  let r := latch_register p4.s sample 1
  let status_register := r.vals.headD junk
  let s5 := controlbus_pin_set r.s PIN_nWP false
  let tr := p1.tr ++ p2.tr ++ p3.tr ++ p4.tr ++ r.tr
  if status_register &&& STATUSREG_IO0 ≠ 0 then ⟨1, s5, tr, some [block, status_register]⟩
  else ⟨0, s5, tr, none⟩

/-- Model of program_page (lines 994-1047). Same write-protect handling as
erase_block: nWP is raised and lowered only in the shadow, reaching the
port on the next push (and the lowered value never, within this call). -/
def program_page (s : BusState) (sample : Nat → Nat) (junk : Nat) (page : Nat)
    (data : List Nat) : PrimOut :=
  let s0 := controlbus_pin_set s PIN_nWP true
  let a := get_address_cycle_map_x8_toshiba_page page 0
  let p1 := latch_command s0 CMD_PAGEPROGRAM.1
  let p2 := latch_address p1.s a
  let p3 := latch_data_out p2.s data
  let p4 := latch_command p3.s CMD_PAGEPROGRAM.2
  let s4 := wait_while_busy p4.s
  let p5 := latch_command s4 CMD_READSTATUS
  let r := latch_register p5.s sample 1
  let status_register := r.vals.headD junk
  let s5 := controlbus_pin_set r.s PIN_nWP false
  let tr := p1.tr ++ p2.tr ++ p3.tr ++ p4.tr ++ p5.tr ++ r.tr
  if status_register &&& STATUSREG_IO0 ≠ 0 then ⟨1, s5, tr, some [page]⟩
  else ⟨0, s5, tr, none⟩

/-- Model of the page-read body of the dump_memory loop (lines 793-809):
read setup command, 5 address cycles for (page, column 0), read confirm
command, busy wait, then clock out one full page of PAGE_SIZE bytes. -/
def read_page (s : BusState) (sample : Nat → Nat) (page : Nat) : RegOut :=
  let p1 := latch_command s CMD_READ1.1
  let a := get_address_cycle_map_x8_toshiba_page page 0
  let p2 := latch_address p1.s a
  let p3 := latch_command p2.s CMD_READ1.2
  let s3 := wait_while_busy p3.s
  let r := latch_register s3 sample PAGE_SIZE
  ⟨r.ret, r.s, r.vals, p1.tr ++ p2.tr ++ p3.tr ++ r.tr⟩

/-- Model of the READ ID sequence in main (lines 1323-1337): READ ID
command, one-cycle address 0x00, then read the 5 ID bytes. -/
def read_id (s : BusState) (sample : Nat → Nat) : RegOut :=
  let p1 := latch_command s CMD_READID
  let p2 := latch_address p1.s [0x00]
  let r := latch_register p2.s sample 5
  ⟨r.ret, r.s, r.vals, p1.tr ++ p2.tr ++ r.tr⟩

/-- Model of is_all_val (lines 1053-1065): 1 (true) iff every byte of the
buffer equals val. -/
def is_all_val (b : List Nat) (val : Nat) : Bool :=
  b.all fun x => x == val

/-- Result of the program_file driver: return code, final bus state, pages
read from the source (n), pages programmed, pages skipped, and the ordered
list of (page index, buffer) arguments of the program_page calls made. -/
structure ProgOut where
  ret : Int
  s : BusState
  read : Nat
  programmed : Nat
  skipped : Nat
  calls : List (Nat × List Nat)
deriving DecidableEq, Repr

/-- Main loop of program_file (lines 1115-1146). The source file is
modelled as the list of full 2112-byte pages fread can deliver; statuses n
is the status oracle for the program_page call of iteration n; a nonzero
program_page result aborts with -1 exactly as the C returns -1. -/
def program_loop (statuses : Nat → Nat → Nat) (junk : Nat) :
    BusState → List (List Nat) → Nat → Nat → Nat → Nat → Nat →
    List (Nat × List Nat) → ProgOut
  | s, [], _, n, _, programmed, skipped, calls => ⟨0, s, n, programmed, skipped, calls⟩
  | s, buf :: rest, page_idx, n, count, programmed, skipped, calls =>
    if n < count then
      if !is_all_val buf 0xFF && !is_all_val buf 0x00 then
        let p := program_page s (statuses n) junk page_idx buf
        if p.ret ≠ 0 then
          ⟨-1, p.s, n, programmed + 1, skipped, calls ++ [(page_idx, buf)]⟩
        else
          program_loop statuses junk p.s rest (page_idx + 1) (n + 1) count
            (programmed + 1) skipped (calls ++ [(page_idx, buf)])
      else
        program_loop statuses junk s rest (page_idx + 1) (n + 1) count
          programmed (skipped + 1) calls
    else ⟨0, s, n, programmed, skipped, calls⟩

/-- Model of program_file (lines 1071-1154): skip input_skip pages of the
source (the fseek), apply the count-zero convention, then run the loop.
Host-side open/malloc/seek failures are external and not modelled. -/
def program_file (statuses : Nat → Nat → Nat) (junk : Nat) (s : BusState)
    (source : List (List Nat)) (start_page count input_skip : Nat) : ProgOut :=
  let pages := source.drop input_skip
  let count2 := if count = 0 then DEFAULT_PAGE_COUNT - start_page else count
  program_loop statuses junk s pages start_page 0 count2 0 0 []

/-- Result of the dump_memory driver: return code, final bus state, page
indices processed, and the bytes appended to the output file. -/
structure DumpOut where
  ret : Int
  s : BusState
  pages : List Nat
  sink : List Nat
deriving DecidableEq, Repr

/-- Page loop of dump_memory (lines 784-850); chip p is the sample oracle
for page p. The fwrite of each page is modelled as appending to sink
(write errors are host-side and not modelled). -/
def dump_loop (chip : Nat → Nat → Nat) :
    BusState → Nat → Nat → List Nat → List Nat → DumpOut
  | s, _, 0, pages, sink => ⟨0, s, pages, sink⟩
  | s, page_idx, remaining + 1, pages, sink =>
    let r := read_page s (chip page_idx) page_idx
    dump_loop chip r.s (page_idx + 1) remaining (pages ++ [page_idx]) (sink ++ r.vals)

/-- Model of dump_memory (lines 758-857): count-zero convention, then the
page loop from start_page. -/
def dump_memory (chip : Nat → Nat → Nat) (s : BusState)
    (start_page count : Nat) : DumpOut :=
  let count2 := if count = 0 then DEFAULT_PAGE_COUNT - start_page else count
  dump_loop chip s start_page count2 [] []

/-- Result of the erase_flash driver: return code, final bus state, and the
blocks for which erase_block was invoked. -/
structure EraseOut where
  ret : Int
  s : BusState
  blocks : List Nat
deriving DecidableEq, Repr

/-- Block loop of erase_flash (lines 1167-1177): erase consecutive blocks,
aborting with -1 on the first erase_block failure. -/
def erase_loop (statuses : Nat → Nat → Nat) (junk : Nat) :
    BusState → Nat → Nat → List Nat → EraseOut
  | s, _, 0, acc => ⟨0, s, acc⟩
  | s, block, remaining + 1, acc =>
    let p := erase_block s (statuses block) junk block
    if p.ret ≠ 0 then ⟨-1, p.s, acc ++ [block]⟩
    else erase_loop statuses junk p.s (block + 1) remaining (acc ++ [block])

/-- Model of erase_flash (lines 1159-1180): count-zero convention over
blocks, then the block loop from start_block. -/
def erase_flash (statuses : Nat → Nat → Nat) (junk : Nat) (s : BusState)
    (start_block count : Nat) : EraseOut :=
  let count2 := if count = 0 then BLOCK_COUNT - start_block else count
  erase_loop statuses junk s start_block count2 []

/-- Model of the bring-up in main (lines 1288-1321): zero both shadows and
push them, set the I/O direction to output, do the one-shot wiring sanity
sample (direction to input, sample both ports, direction back to output),
then set the idle state nRE high / nCE low / nWP low and push it. The
initial direction before bitbang setup is irrelevant; output is used. -/
def main_bringup : BusState × List Event :=
  let s0 : BusState := ⟨0, 0, IODir.out⟩
  let e0 := [Event.ctrlWrite 0, Event.setDir IODir.out, Event.ioWrite 0]
  let e1 := [Event.setDir IODir.input, Event.ioRead, Event.setDir IODir.out]
  let s1 := controlbus_pin_set (controlbus_pin_set (controlbus_pin_set s0 PIN_nRE true) PIN_nCE false) PIN_nWP false
  (s1, e0 ++ e1 ++ [Event.ctrlWrite s1.ctrl])

/-- Idle bus state right after bring-up: control shadow 0x10 (only nRE
high), I/O shadow 0x00, direction output; this byte was the last one pushed
to the control port. -/
def idle_state : BusState := ⟨0x10, 0x00, IODir.out⟩

/-- Model of the teardown at the end of main (lines 1353-1361): nCE is set
high in the control shadow, then the busses are closed (close_busses only
disables bitbang mode and frees the contexts). No port write happens
between the pin_set and process exit, so the event trace is empty. -/
def main_teardown (s : BusState) : BusState × List Event :=
  (controlbus_pin_set s PIN_nCE true, [])

/-- Program parameters relevant to argument validation (prog_params_t);
string-valued fields (filenames) play no role in the checks and are
omitted. -/
structure ProgParams where
  start_page : Int
  count : Int
  delay : Int
  test : Bool
  do_program : Bool
  input_skip : Int
  do_erase : Bool
  start_block : Int
  overwrite : Bool
deriving DecidableEq, Repr

/-- Defaults established by reset_prog_params (memset to zero plus the
explicit defaults; start_page default is 0). -/
def default_params : ProgParams := ⟨0, 0, 0, false, false, 0, false, 0, false⟩

/-- Validation tail of parse_prog_params (lines 228-248): reject -E with a
nonzero -s, reject nonzero -b with nonzero -s (C truthiness: an int option
value counts as set iff it is nonzero), then rewrite start_page from
start_block. Returns the C return value and the resulting params. -/
def parse_validate (p : ProgParams) : Int × ProgParams :=
  if p.do_erase ∧ p.start_page ≠ 0 then (-1, p)
  else if p.start_block ≠ 0 ∧ p.start_page ≠ 0 then (-1, p)
  else if p.start_block ≠ 0 then
    (0, { p with start_page := p.start_block * PAGE_PER_BLOCK })
  else (0, p)

/-- Argument gate at the top of main (lines 1220-1223): a nonzero
parse_prog_params result makes main return 1 before any FTDI call, hence
before any GPIO transport activity; some 1 models that exit, none means
main proceeds to open the FTDI channels. -/
def main_arg_gate (p : ProgParams) : Option Int :=
  if (parse_validate p).1 ≠ 0 then some 1 else none

/-- Params produced by invoking the CLI with -s N -b M (getopt phase only
stores the two atoi values). -/
def params_s_b (N M : Int) : ProgParams :=
  { default_params with start_page := N, start_block := M }

/-- Params produced by invoking the CLI with -s N -E. -/
def params_s_E (N : Int) : ProgParams :=
  { default_params with start_page := N, do_erase := true }

/-- Control-port bytes of a trace, in order. -/
def ctrlWrites (tr : List Event) : List Nat :=
  tr.filterMap fun e =>
    match e with
    | Event.ctrlWrite b => some b
    | _ => none

/-- Bytes written to the I/O port in a trace, in order. -/
def ioWrites (tr : List Event) : List Nat :=
  tr.filterMap fun e =>
    match e with
    | Event.ioWrite b => some b
    | _ => none

/-- Direction changes of the I/O port in a trace, in order. -/
def dirEvents (tr : List Event) : List IODir :=
  tr.filterMap fun e =>
    match e with
    | Event.setDir d => some d
    | _ => none

/-- Number of low-to-high transitions of the given pin along a list of
control-port bytes, starting from the electrical value prev. -/
def countRises (pin : Nat) : Nat → List Nat → Nat
  | _, [] => 0
  | prev, w :: ws =>
    (if prev &&& pin = 0 ∧ w &&& pin ≠ 0 then 1 else 0) + countRises pin w ws

/-- Number of high-to-low transitions of the given pin along a list of
control-port bytes, starting from the electrical value prev. -/
def countFalls (pin : Nat) : Nat → List Nat → Nat
  | _, [] => 0
  | prev, w :: ws =>
    (if prev &&& pin ≠ 0 ∧ w &&& pin = 0 then 1 else 0) + countFalls pin w ws

/-- Control-shadow values at which the drivers invoke the NAND command
sequences: 0x10 immediately after bring-up, 0x18 after any completed
sequence (nRE and nWE high, everything else low). -/
def good_entry (s : BusState) : Prop := s.ctrl = 0x10 ∨ s.ctrl = 0x18

/-- Specification-side restatement of the program-skip policy, used to
compare the program_file loop against the spec: starting at page start,
the (page, buffer) pairs that must be programmed are exactly the source
pages that are neither uniformly 0xFF nor uniformly 0x00, at consecutive
page indices. -/
def spec_program_calls (start : Nat) : List (List Nat) → List (Nat × List Nat)
  | [] => []
  | b :: rest =>
    if !is_all_val b 0xFF && !is_all_val b 0x00 then
      (start, b) :: spec_program_calls (start + 1) rest
    else spec_program_calls (start + 1) rest

/-- A page uniformly filled with 0xFF (the NAND erased state). -/
def pageFF : List Nat := List.replicate 2112 0xFF

/-- A page uniformly filled with 0x00 (the suspected bad-block artifact). -/
def page00 : List Nat := List.replicate 2112 0x00

/-- A non-uniform example page, filled with 0xAB. -/
def pageAB : List Nat := List.replicate 2112 0xAB

end FlashTool

namespace FlashTool

/-- Oring in a pin outside the mask does not change the masked bits. -/
theorem and_or_mask (x p m : Nat) (h : p &&& m = 0) : (x ||| p) &&& m = x &&& m := by
  apply Nat.eq_of_testBit_eq
  intro i
  have hp : (p &&& m).testBit i = false := by rw [h]; exact Nat.zero_testBit i
  simp only [Nat.testBit_and, Nat.testBit_or, Bool.and_eq_false_iff] at hp
  rcases hp with hp | hp <;>
    simp [Nat.testBit_and, Nat.testBit_or, hp]

/-- Anding with a byte mask that keeps all bits of m does not change the
masked bits. -/
theorem and_and_mask (x c m : Nat) (h : c &&& m = m) : (x &&& c) &&& m = x &&& m := by
  rw [Nat.and_assoc, h]

/-- Direction events are invariant under trace concatenation. -/
theorem dirEvents_append (a b : List Event) :
    dirEvents (a ++ b) = dirEvents a ++ dirEvents b := by
  simp [dirEvents, List.filterMap_append]

/-- A control-port write contributes no direction event. -/
theorem dirEvents_cons_ctrlWrite (b : Nat) (tr : List Event) :
    dirEvents (Event.ctrlWrite b :: tr) = dirEvents tr := rfl

/-- An I/O-port write contributes no direction event. -/
theorem dirEvents_cons_ioWrite (b : Nat) (tr : List Event) :
    dirEvents (Event.ioWrite b :: tr) = dirEvents tr := rfl

/-- An I/O-port sample contributes no direction event. -/
theorem dirEvents_cons_ioRead (tr : List Event) :
    dirEvents (Event.ioRead :: tr) = dirEvents tr := rfl

/-- A direction flip is recorded as a direction event. -/
theorem dirEvents_cons_setDir (d : IODir) (tr : List Event) :
    dirEvents (Event.setDir d :: tr) = d :: dirEvents tr := rfl

/-- The empty trace has no direction events. -/
theorem dirEvents_nil : dirEvents [] = [] := rfl

/-- The write loop never touches the I/O-port direction mode. -/
theorem write_loop_dir (bs : List Nat) (s : BusState) :
    ((write_loop s bs).1).dir = s.dir := by
  induction bs generalizing s with
  | nil => rfl
  | cons b rest ih =>
    simp only [write_loop]
    rw [ih]
    simp [write_cycle, controlbus_pin_set]

/-- The write loop emits no direction events. -/
theorem write_loop_dirEvents (bs : List Nat) (s : BusState) :
    dirEvents (write_loop s bs).2 = [] := by
  induction bs generalizing s with
  | nil => rfl
  | cons b rest ih =>
    simp [write_loop, write_cycle, dirEvents_append, dirEvents_cons_ctrlWrite,
      dirEvents_cons_ioWrite, ih]

/-- From control shadow 0x38 the write loop returns to 0x38 after every
cycle (nWE is pulsed low and back high). -/
theorem write_loop_ctrl56 (bs : List Nat) (s : BusState) (h : s.ctrl = 56) :
    ((write_loop s bs).1).ctrl = 56 := by
  induction bs generalizing s with
  | nil => simpa using h
  | cons b rest ih =>
    simp only [write_loop]
    apply ih
    simp [write_cycle, controlbus_pin_set, h, PIN_nWE]
    decide

/-- The read loop never touches the I/O-port direction mode. -/
theorem read_loop_dir (n : Nat) (sample : Nat → Nat) (i : Nat) (s : BusState) :
    ((read_loop s sample i n).s).dir = s.dir := by
  induction n generalizing s i with
  | zero => rfl
  | succ m ih =>
    simp only [read_loop]
    rw [ih]
    simp [read_cycle, controlbus_pin_set]

/-- The read loop emits no direction events. -/
theorem read_loop_dirEvents (n : Nat) (sample : Nat → Nat) (i : Nat) (s : BusState) :
    dirEvents ((read_loop s sample i n).tr) = [] := by
  induction n generalizing s i with
  | zero => rfl
  | succ m ih =>
    simp [read_loop, read_cycle, dirEvents_append, dirEvents_cons_ctrlWrite,
      dirEvents_cons_ioRead, ih]

/-- The bytes delivered by the read loop are the oracle values in order. -/
theorem read_loop_vals (n : Nat) (sample : Nat → Nat) (i : Nat) (s : BusState) :
    (read_loop s sample i n).vals = (List.range' i n).map sample := by
  induction n generalizing s i with
  | zero => rfl
  | succ m ih =>
    simp [read_loop, List.range'_succ, ih]

/-- From control shadow 0x18 the read loop returns to 0x18 after every
cycle (nRE is pulsed low and back high). -/
theorem read_loop_ctrl24 (n : Nat) (sample : Nat → Nat) (i : Nat) (s : BusState)
    (h : s.ctrl = 24) : ((read_loop s sample i n).s).ctrl = 24 := by
  induction n generalizing s i with
  | zero => simpa using h
  | succ m ih =>
    simp only [read_loop]
    apply ih
    simp [read_cycle, controlbus_pin_set, h, PIN_nRE]
    decide

/-- From control shadow 0x38 (write-protect removed) the read loop returns
to 0x38 after every cycle. -/
theorem read_loop_ctrl56 (n : Nat) (sample : Nat → Nat) (i : Nat) (s : BusState)
    (h : s.ctrl = 56) : ((read_loop s sample i n).s).ctrl = 56 := by
  induction n generalizing s i with
  | zero => simpa using h
  | succ m ih =>
    simp only [read_loop]
    apply ih
    simp [read_cycle, controlbus_pin_set, h, PIN_nRE]
    decide

end FlashTool

namespace FlashTool

/-- Behaviour of erase_block from a driver entry state: the result and the
failure data are decided exactly by bit 0 of the status byte the oracle
returns for the single status read; the final control shadow is 0x18 and
the direction is back to output; the only direction events are the
input/output pair of the status register read. -/
theorem erase_block_spec (s : BusState) (sample : Nat → Nat) (junk block : Nat)
    (h : good_entry s) :
    (erase_block s sample junk block).ret =
      (if sample 0 &&& STATUSREG_IO0 ≠ 0 then 1 else 0) ∧
    (erase_block s sample junk block).err =
      (if sample 0 &&& STATUSREG_IO0 ≠ 0 then some [block, sample 0] else none) ∧
    ((erase_block s sample junk block).s).ctrl = 24 ∧
    ((erase_block s sample junk block).s).dir = IODir.out ∧
    dirEvents (erase_block s sample junk block).tr = [IODir.input, IODir.out] := by
  unfold good_entry at h
  rcases h with h | h <;>
    by_cases hs : sample 0 % 2 = 1 <;>
      simp +decide [erase_block, latch_command, latch_address, latch_register, wait_while_busy,
        controlbus_pin_set, get_address_cycle_map_x8_toshiba_page, write_loop, write_cycle,
        read_loop_vals, read_loop_ctrl56, read_loop_dir, read_loop_dirEvents,
        dirEvents_append, dirEvents_cons_ctrlWrite, dirEvents_cons_ioWrite,
        dirEvents_cons_ioRead, dirEvents_cons_setDir, dirEvents_nil, List.getD,
        h, hs, PIN_CLE, PIN_ALE, PIN_nCE, PIN_nWE, PIN_nRE, PIN_nWP,
        CMD_BLOCKERASE, CMD_READSTATUS, STATUSREG_IO0, PAGE_PER_BLOCK]

end FlashTool

namespace FlashTool

/-- Behaviour of program_page from a driver entry state: result and failure
data are decided exactly by bit 0 of the status byte returned for the
single status read; the final control shadow is 0x18, the direction is
output, and the only direction events are the input/output pair of the
status read. Holds for an arbitrary data buffer. -/
theorem program_page_spec (s : BusState) (sample : Nat → Nat) (junk page : Nat)
    (data : List Nat) (h : good_entry s) :
    (program_page s sample junk page data).ret =
      (if sample 0 &&& STATUSREG_IO0 ≠ 0 then 1 else 0) ∧
    (program_page s sample junk page data).err =
      (if sample 0 &&& STATUSREG_IO0 ≠ 0 then some [page] else none) ∧
    ((program_page s sample junk page data).s).ctrl = 24 ∧
    ((program_page s sample junk page data).s).dir = IODir.out ∧
    dirEvents (program_page s sample junk page data).tr = [IODir.input, IODir.out] := by
  unfold good_entry at h
  rcases h with h | h <;>
    by_cases hs : sample 0 % 2 = 1 <;>
      simp +decide [program_page, latch_command, latch_address, latch_data_out,
        latch_register, wait_while_busy, controlbus_pin_set,
        get_address_cycle_map_x8_toshiba_page, write_loop, write_cycle,
        write_loop_ctrl56, write_loop_dir, write_loop_dirEvents,
        read_loop_vals, read_loop_ctrl56, read_loop_dir, read_loop_dirEvents,
        dirEvents_append, dirEvents_cons_ctrlWrite, dirEvents_cons_ioWrite,
        dirEvents_cons_ioRead, dirEvents_cons_setDir, dirEvents_nil,
        h, hs, PIN_CLE, PIN_ALE, PIN_nCE, PIN_nWE, PIN_nRE, PIN_nWP,
        CMD_PAGEPROGRAM, CMD_READSTATUS, STATUSREG_IO0]

/-- Behaviour of the page-read sequence from a driver entry state: it
succeeds, leaves the control shadow at 0x18 with the direction restored to
output, and its only direction events are the input/output pair of the
2112-byte register read. -/
theorem read_page_spec (s : BusState) (sample : Nat → Nat) (page : Nat)
    (h : good_entry s) :
    (read_page s sample page).ret = 0 ∧
    ((read_page s sample page).s).ctrl = 24 ∧
    ((read_page s sample page).s).dir = IODir.out ∧
    dirEvents (read_page s sample page).tr = [IODir.input, IODir.out] := by
  unfold good_entry at h
  rcases h with h | h <;>
    simp +decide [read_page, latch_command, latch_address, latch_register,
      wait_while_busy, controlbus_pin_set, get_address_cycle_map_x8_toshiba_page,
      write_loop, write_cycle,
      read_loop_ctrl24, read_loop_dir, read_loop_dirEvents,
      dirEvents_append, dirEvents_cons_ctrlWrite, dirEvents_cons_ioWrite,
      dirEvents_cons_ioRead, dirEvents_cons_setDir, dirEvents_nil,
      h, PIN_CLE, PIN_ALE, PIN_nCE, PIN_nWE, PIN_nRE, PIN_nWP, CMD_READ1]

/-- Behaviour of the read-ID sequence from a driver entry state: it
succeeds, leaves the control shadow at 0x18 with the direction restored to
output, and its only direction events are the input/output pair of the
5-byte register read. -/
theorem read_id_spec (s : BusState) (sample : Nat → Nat) (h : good_entry s) :
    (read_id s sample).ret = 0 ∧
    ((read_id s sample).s).ctrl = 24 ∧
    ((read_id s sample).s).dir = IODir.out ∧
    dirEvents (read_id s sample).tr = [IODir.input, IODir.out] := by
  unfold good_entry at h
  rcases h with h | h <;>
    simp +decide [read_id, latch_command, latch_address, latch_register,
      wait_while_busy, controlbus_pin_set,
      write_loop, write_cycle,
      read_loop_ctrl24, read_loop_dir, read_loop_dirEvents,
      dirEvents_append, dirEvents_cons_ctrlWrite, dirEvents_cons_ioWrite,
      dirEvents_cons_ioRead, dirEvents_cons_setDir, dirEvents_nil,
      h, PIN_CLE, PIN_ALE, PIN_nCE, PIN_nWE, PIN_nRE, PIN_nWP, CMD_READID]

end FlashTool

namespace FlashTool

/-- The dump loop processes exactly the requested number of pages (the host
sink is assumed writable; chip data does not influence control flow). -/
theorem dump_loop_spec (chip : Nat → Nat → Nat) (remaining : Nat) :
    ∀ (s : BusState) (page_idx : Nat) (pages sink : List Nat), good_entry s →
      (dump_loop chip s page_idx remaining pages sink).pages.length =
        pages.length + remaining := by
  induction remaining with
  | zero =>
    intro s page_idx pages sink _
    simp [dump_loop]
  | succ m ih =>
    intro s page_idx pages sink h
    obtain ⟨-, hc, -, -⟩ := read_page_spec s (chip page_idx) page_idx h
    simp only [dump_loop]
    rw [ih _ _ _ _ (Or.inr hc)]
    simp [List.length_append]
    omega

/-- With an all-success status oracle the erase loop visits exactly the
consecutive blocks of the requested range and succeeds. -/
theorem erase_loop_spec (junk : Nat) (remaining : Nat) :
    ∀ (s : BusState) (block : Nat) (acc : List Nat), good_entry s →
      (erase_loop (fun _ _ => 0) junk s block remaining acc).blocks =
        acc ++ List.range' block remaining ∧
      (erase_loop (fun _ _ => 0) junk s block remaining acc).ret = 0 := by
  induction remaining with
  | zero =>
    intro s block acc _
    simp [erase_loop]
  | succ m ih =>
    intro s block acc h
    obtain ⟨hret, -, hc, -, -⟩ := erase_block_spec s (fun _ => 0) junk block h
    have hrec := ih (erase_block s (fun _ => 0) junk block).s (block + 1)
      (acc ++ [block]) (Or.inr hc)
    simp only [erase_loop]
    simp +decide [hret, hrec.1, hrec.2, List.range'_succ]

/-- Upper bound on the number of programmed pages picked by the skip
policy: at most one per source page. -/
theorem spec_program_calls_length_le (l : List (List Nat)) :
    ∀ st, (spec_program_calls st l).length ≤ l.length := by
  induction l with
  | nil => intro st; simp [spec_program_calls]
  | cons b rest ih =>
    intro st
    have hr := ih (st + 1)
    by_cases hb : (!is_all_val b 0xFF && !is_all_val b 0x00) = true <;>
      simp [spec_program_calls, hb] <;> omega

/-- With an all-success status oracle the program loop reads
min(count, source length) pages, programs exactly the pages selected by the
skip policy (in order, at consecutive page indices), skips the rest, and
returns 0. -/
theorem program_loop_spec (junk : Nat) (pages : List (List Nat)) :
    ∀ (s : BusState) (start n count programmed skipped : Nat)
      (calls : List (Nat × List Nat)), good_entry s →
      (program_loop (fun _ _ => 0) junk s pages start n count programmed skipped calls).ret = 0 ∧
      (program_loop (fun _ _ => 0) junk s pages start n count programmed skipped calls).read =
        n + min (count - n) pages.length ∧
      (program_loop (fun _ _ => 0) junk s pages start n count programmed skipped calls).programmed =
        programmed + (spec_program_calls start (pages.take (count - n))).length ∧
      (program_loop (fun _ _ => 0) junk s pages start n count programmed skipped calls).skipped =
        skipped + (min (count - n) pages.length -
          (spec_program_calls start (pages.take (count - n))).length) ∧
      (program_loop (fun _ _ => 0) junk s pages start n count programmed skipped calls).calls =
        calls ++ spec_program_calls start (pages.take (count - n)) := by
  induction pages with
  | nil =>
    intro s start n count programmed skipped calls _
    simp [program_loop, spec_program_calls]
  | cons buf rest ih =>
    intro s start n count programmed skipped calls h
    by_cases hn : n < count
    · have hcn : count - n = (count - (n + 1)) + 1 := by omega
      by_cases hb : (!is_all_val buf 0xFF && !is_all_val buf 0x00) = true
      · obtain ⟨hret, -, hc, -, -⟩ := program_page_spec s (fun _ => 0) junk start buf h
        have hrec := ih (program_page s (fun _ => 0) junk start buf).s (start + 1)
          (n + 1) count (programmed + 1) skipped (calls ++ [(start, buf)]) (Or.inr hc)
        have hlen := spec_program_calls_length_le (rest.take (count - (n + 1))) (start + 1)
        simp only [program_loop, hn, if_true, hb]
        rw [hcn, List.take_succ_cons]
        simp +decide [hret, hb, spec_program_calls, hrec.1, hrec.2.1, hrec.2.2.1,
          hrec.2.2.2.1, hrec.2.2.2.2, List.length_take] at *
        omega
      · have hrec := ih s (start + 1) (n + 1) count programmed (skipped + 1) calls h
        have hlen := spec_program_calls_length_le (rest.take (count - (n + 1))) (start + 1)
        simp only [program_loop, hn, if_true, hb]
        rw [hcn, List.take_succ_cons]
        simp [hb, spec_program_calls, hrec.1, hrec.2.1, hrec.2.2.1,
          hrec.2.2.2.1, hrec.2.2.2.2, List.length_take] at *
        omega
    · have hcn : count - n = 0 := by omega
      simp [program_loop, hn, hcn, spec_program_calls]

end FlashTool

namespace FlashTool

/-- Claim C1 (code bug): a successful erase_block run from the idle
bring-up state produces exactly one nWP rising transition in the
control-port write trace before anything else (so before the 0x60 setup
command is latched), but zero nWP falling transitions after the final
status read: the code clears nWP only in the shadow and never pushes it,
so the write-protect line is left electrically high, contradicting the
claimed one nWP fall per destructive sequence. -/
theorem C1_erase_nwp_trace :
    (erase_block idle_state (fun _ => 0) 0 0).ret = 0 ∧
    countRises PIN_nWP idle_state.ctrl
      (ctrlWrites (erase_block idle_state (fun _ => 0) 0 0).tr) = 1 ∧
    countFalls PIN_nWP idle_state.ctrl
      (ctrlWrites (erase_block idle_state (fun _ => 0) 0 0).tr) = 0 ∧
    ((erase_block idle_state (fun _ => 0) 0 0).s).ctrl &&& PIN_nWP = 0 := by
  decide

/-- Claim C2 counterexample: the chip-to-host data-out primitive
(latch_register) invoked with CLE high (control shadow 0x19: CLE, nWE, nRE
high) succeeds and performs transport I/O instead of returning an error,
and the host-to-chip data-in primitive (latch_data_out) invoked with nCE
high performs I/O with no check at all. -/
theorem C2_counterexample_latch_checks :
    (latch_register ⟨0x19, 0, IODir.out⟩ (fun _ => 0) 1).ret = 0 ∧
    (latch_register ⟨0x19, 0, IODir.out⟩ (fun _ => 0) 1).tr.length = 5 ∧
    (latch_data_out ⟨PIN_nCE, 0, IODir.out⟩ [0xA5]).ret = 0 ∧
    (latch_data_out ⟨PIN_nCE, 0, IODir.out⟩ [0xA5]).tr.length = 3 := by
  decide

/-- Claim C2 as amended: latch_command checks nCE low and nRE high;
latch_address checks nCE low, CLE low and nRE high; latch_register (the
chip-to-host data-out) checks nCE low, nWE high and ALE low but not CLE;
latch_data_out (the host-to-chip data-in) performs no check and always
succeeds; whenever a performed check fails the primitive returns
EXIT_FAILURE having done no transport I/O and no shadow mutation. -/
theorem C2_latch_preconditions_amended (s : BusState) (c : Nat) (a : List Nat)
    (sample : Nat → Nat) (n : Nat) (d : List Nat) :
    ((latch_command s c).ret ≠ 0 ↔ s.ctrl &&& PIN_nCE ≠ 0 ∨ s.ctrl &&& PIN_nRE = 0) ∧
    (s.ctrl &&& PIN_nCE ≠ 0 ∨ s.ctrl &&& PIN_nRE = 0 →
      latch_command s c = ⟨EXIT_FAILURE, s, [], none⟩) ∧
    ((latch_address s a).ret ≠ 0 ↔
      s.ctrl &&& PIN_nCE ≠ 0 ∨ s.ctrl &&& PIN_CLE ≠ 0 ∨ s.ctrl &&& PIN_nRE = 0) ∧
    (s.ctrl &&& PIN_nCE ≠ 0 ∨ s.ctrl &&& PIN_CLE ≠ 0 ∨ s.ctrl &&& PIN_nRE = 0 →
      latch_address s a = ⟨EXIT_FAILURE, s, [], none⟩) ∧
    ((latch_register s sample n).ret ≠ 0 ↔
      s.ctrl &&& PIN_nCE ≠ 0 ∨ s.ctrl &&& PIN_nWE = 0 ∨ s.ctrl &&& PIN_ALE ≠ 0) ∧
    (s.ctrl &&& PIN_nCE ≠ 0 ∨ s.ctrl &&& PIN_nWE = 0 ∨ s.ctrl &&& PIN_ALE ≠ 0 →
      latch_register s sample n = ⟨EXIT_FAILURE, s, [], []⟩) ∧
    (latch_data_out s d).ret = 0 := by
  refine ⟨?_, ?_, ?_, ?_, ?_, ?_, ?_⟩ <;>
    simp only [latch_command, latch_address, latch_register, latch_data_out] <;>
    split_ifs <;> simp_all [EXIT_FAILURE]

/-- Claim C2 witness: latch_command invoked with nCE high returns the
error output untouched. -/
theorem C2_latch_preconditions_witness :
    latch_command ⟨PIN_nCE, 0, IODir.out⟩ 0x90 =
      ⟨EXIT_FAILURE, ⟨PIN_nCE, 0, IODir.out⟩, [], none⟩ :=
  (C2_latch_preconditions_amended ⟨PIN_nCE, 0, IODir.out⟩ 0x90 [] (fun _ => 0) 0 []).2.1
    (Or.inl (by decide))

/-- Claim C3 counterexample: from a typical post-driver state the teardown
in main issues no control-port write at all (it only flips nCE in the
shadow, 24 becomes 28), so no write carrying nCE high / nWP low reaches
the port before the GPIO channels are released. -/
theorem C3_counterexample_teardown :
    (main_teardown ⟨24, 0, IODir.out⟩).2 = [] ∧
    ((main_teardown ⟨24, 0, IODir.out⟩).1).ctrl = 28 := by
  decide

/-- Claim C3 as amended: on the common exit path the orchestrator only
sets nCE high in the control-bus shadow; no control-port write is issued
between that pin update and the release of the GPIO ports, so the idle
state is established in the shadow only, never on the port. -/
theorem C3_teardown_shadow_only (s : BusState) :
    (main_teardown s).2 = [] ∧
    ((main_teardown s).1).ctrl = (s.ctrl ||| PIN_nCE) ∧
    ((main_teardown s).1).ctrl.testBit 2 = true ∧
    ((main_teardown s).1).io = s.io ∧
    ((main_teardown s).1).dir = s.dir := by
  have h4 : Nat.testBit 4 2 = true := by decide
  refine ⟨rfl, rfl, ?_, rfl, rfl⟩
  simp [main_teardown, controlbus_pin_set, PIN_nCE, Nat.testBit_or, h4]

/-- Claim C4: from a driver entry state, erase_block and program_page
return an error (1) iff bit 0 of the status byte delivered by the final
register read is set, and success (0) iff it is clear; the erase failure
carries the block index and the status byte, the program failure carries
the page index, and no failure data is produced on success. -/
theorem C4_status_gating (s : BusState) (h : good_entry s) :
    (∀ (sample : Nat → Nat) (junk block : Nat),
      ((erase_block s sample junk block).ret = 1 ↔ sample 0 &&& STATUSREG_IO0 ≠ 0) ∧
      ((erase_block s sample junk block).ret = 0 ↔ sample 0 &&& STATUSREG_IO0 = 0) ∧
      (sample 0 &&& STATUSREG_IO0 ≠ 0 →
        (erase_block s sample junk block).err = some [block, sample 0]) ∧
      (sample 0 &&& STATUSREG_IO0 = 0 → (erase_block s sample junk block).err = none)) ∧
    (∀ (sample : Nat → Nat) (junk page : Nat) (data : List Nat),
      ((program_page s sample junk page data).ret = 1 ↔ sample 0 &&& STATUSREG_IO0 ≠ 0) ∧
      ((program_page s sample junk page data).ret = 0 ↔ sample 0 &&& STATUSREG_IO0 = 0) ∧
      (sample 0 &&& STATUSREG_IO0 ≠ 0 →
        (program_page s sample junk page data).err = some [page]) ∧
      (sample 0 &&& STATUSREG_IO0 = 0 →
        (program_page s sample junk page data).err = none)) := by
  constructor
  · intro sample junk block
    obtain ⟨hret, herr, -, -, -⟩ := erase_block_spec s sample junk block h
    by_cases hs : sample 0 &&& STATUSREG_IO0 = 0 <;> simp [hret, herr, hs]
  · intro sample junk page data
    obtain ⟨hret, herr, -, -, -⟩ := program_page_spec s sample junk page data h
    by_cases hs : sample 0 &&& STATUSREG_IO0 = 0 <;> simp [hret, herr, hs]

/-- Claim C4 witness: with a status oracle returning 1, erase_block from
the idle state fails exactly as the status bit dictates. -/
theorem C4_status_gating_witness :
    good_entry idle_state ∧
    ((erase_block idle_state (fun _ => 1) 0 7).ret = 1 ↔
      (1 : Nat) &&& STATUSREG_IO0 ≠ 0) :=
  ⟨Or.inl rfl, ((C4_status_gating idle_state (Or.inl rfl)).1 (fun _ => 1) 0 7).1⟩

end FlashTool

namespace FlashTool

/-- Uniform pages: a buffer that is n copies of v is all-v. -/
theorem is_all_val_replicate_self (n v : Nat) :
    is_all_val (List.replicate n v) v = true := by
  simp [is_all_val, List.all_eq_true, List.mem_replicate]

/-- Uniform pages: a nonempty buffer of copies of a is not all-b when a
and b differ. -/
theorem is_all_val_replicate_of_ne (n a b : Nat) (hn : 0 < n) (h : ¬ a = b) :
    is_all_val (List.replicate n a) b = false := by
  cases n with
  | zero => omega
  | succ m => simp [is_all_val, List.replicate_succ, h]

/-- Claim C5: with an all-success chip, the program driver programs
exactly the source pages that are neither uniformly 0xFF nor uniformly
0x00 (in order, at consecutive page indices), and in the concrete scenario
start_page 100, count 4, skip 1 over the source pages
[0xFF page, 0xFF page, bufX, 0x00 page] it issues exactly one
program_page call, for page 101 with buffer bufX, reporting read 3,
programmed 1, skipped 2. -/
theorem C5_program_skip_policy (bufX : List Nat) (junk : Nat)
    (h1 : is_all_val bufX 0xFF = false) (h2 : is_all_val bufX 0x00 = false) :
    (∀ (junk2 : Nat) (source : List (List Nat)) (start count skip : Nat),
      (program_file (fun _ _ => 0) junk2 idle_state source start count skip).calls =
        spec_program_calls start ((source.drop skip).take
          (if count = 0 then DEFAULT_PAGE_COUNT - start else count))) ∧
    (program_file (fun _ _ => 0) junk idle_state
      [pageFF, pageFF, bufX, page00] 100 4 1).ret = 0 ∧
    (program_file (fun _ _ => 0) junk idle_state
      [pageFF, pageFF, bufX, page00] 100 4 1).read = 3 ∧
    (program_file (fun _ _ => 0) junk idle_state
      [pageFF, pageFF, bufX, page00] 100 4 1).programmed = 1 ∧
    (program_file (fun _ _ => 0) junk idle_state
      [pageFF, pageFF, bufX, page00] 100 4 1).skipped = 2 ∧
    (program_file (fun _ _ => 0) junk idle_state
      [pageFF, pageFF, bufX, page00] 100 4 1).calls = [(101, bufX)] := by
  have hFF : is_all_val pageFF 0xFF = true :=
    is_all_val_replicate_self 2112 0xFF
  have hFF0 : is_all_val pageFF 0x00 = false :=
    is_all_val_replicate_of_ne 2112 0xFF 0x00 (by decide) (by decide)
  have h0FF : is_all_val page00 0xFF = false :=
    is_all_val_replicate_of_ne 2112 0x00 0xFF (by decide) (by decide)
  have h00 : is_all_val page00 0x00 = true :=
    is_all_val_replicate_self 2112 0x00
  have hl := program_loop_spec junk
    [pageFF, bufX, page00] idle_state 100 0 4 0 0 []
    (Or.inl rfl)
  have hcalls : spec_program_calls 100 ([pageFF, bufX, page00] : List (List Nat)) =
      [(101, bufX)] := by
    simp [spec_program_calls, hFF, hFF0, h0FF, h00, h1, h2]
  refine ⟨?_, ?_, ?_, ?_, ?_, ?_⟩
  · intro junk2 source start count skip
    simp only [program_file]
    have hg := (program_loop_spec junk2 (source.drop skip) idle_state start 0
      (if count = 0 then DEFAULT_PAGE_COUNT - start else count) 0 0 []
      (Or.inl rfl)).2.2.2.2
    simpa using hg
  · simp +decide [program_file, hl.1]
  · simp +decide [program_file, hl.2.1]
  · simp only [program_file]
    simp +decide [hl.2.2.1, hcalls]
  · simp only [program_file]
    simp +decide [hl.2.2.2.1, hcalls]
  · simp only [program_file]
    simp +decide [hl.2.2.2.2, hcalls]

/-- Claim C5 witness: the scenario instantiated with an explicit
non-uniform buffer. -/
theorem C5_program_skip_policy_witness :
    is_all_val pageAB 0xFF = false ∧
    (program_file (fun _ _ => 0) 0 idle_state
      [pageFF, pageFF, pageAB, page00] 100 4 1).calls = [(101, pageAB)] :=
  ⟨is_all_val_replicate_of_ne 2112 0xAB 0xFF (by decide) (by decide),
   (C5_program_skip_policy pageAB 0
     (is_all_val_replicate_of_ne 2112 0xAB 0xFF (by decide) (by decide))
     (is_all_val_replicate_of_ne 2112 0xAB 0x00 (by decide) (by decide))).2.2.2.2.2⟩

/-- Claim C6: the page-based x8 address packer maps (page, column) to the
five bytes [column low, column high, page low, page mid, page high], and
in particular page 0x01A2B3 / column 0 packs to 00 00 B3 A2 01 and page 0
/ column 0x0123 packs to 23 01 00 00 00. -/
theorem C6_address_cycle_packing :
    (∀ page column, get_address_cycle_map_x8_toshiba_page page column =
      [column &&& 0xFF, (column >>> 8) &&& 0xFF, page &&& 0xFF,
       (page >>> 8) &&& 0xFF, (page >>> 16) &&& 0xFF]) ∧
    get_address_cycle_map_x8_toshiba_page 0x01A2B3 0 =
      [0x00, 0x00, 0xB3, 0xA2, 0x01] ∧
    get_address_cycle_map_x8_toshiba_page 0 0x0123 =
      [0x23, 0x01, 0x00, 0x00, 0x00] := by
  refine ⟨fun page column => rfl, by decide, by decide⟩

/-- Claim C7: latch_command called with nCE low and nRE high succeeds and
emits exactly the ordered control trace CLE high, nWE low, nWE high, CLE
low (with the single command byte written to the I/O port between the nWE
edges), and every control byte of the call keeps the nCE, nRE, nWP and
ALE bits at their entry values. -/
theorem C7_latch_command_framing (s : BusState) (c : Nat)
    (h1 : s.ctrl &&& PIN_nCE = 0) (h2 : s.ctrl &&& PIN_nRE ≠ 0) :
    (latch_command s c).ret = 0 ∧
    (latch_command s c).tr =
      [Event.ctrlWrite (s.ctrl ||| PIN_CLE),
       Event.ctrlWrite ((s.ctrl ||| PIN_CLE) &&& (0xFF ^^^ PIN_nWE)),
       Event.ioWrite c,
       Event.ctrlWrite (((s.ctrl ||| PIN_CLE) &&& (0xFF ^^^ PIN_nWE)) ||| PIN_nWE),
       Event.ctrlWrite ((((s.ctrl ||| PIN_CLE) &&& (0xFF ^^^ PIN_nWE)) ||| PIN_nWE) &&&
         (0xFF ^^^ PIN_CLE))] ∧
    ioWrites (latch_command s c).tr = [c] ∧
    (∀ b ∈ ctrlWrites (latch_command s c).tr,
      b &&& (PIN_nCE ||| PIN_nRE ||| PIN_nWP ||| PIN_ALE) =
        s.ctrl &&& (PIN_nCE ||| PIN_nRE ||| PIN_nWP ||| PIN_ALE)) := by
  have he : latch_command s c =
      ⟨0, controlbus_pin_set (controlbus_pin_set
            { controlbus_pin_set (controlbus_pin_set s PIN_CLE true) PIN_nWE false
              with io := c } PIN_nWE true) PIN_CLE false,
       [Event.ctrlWrite (s.ctrl ||| PIN_CLE),
        Event.ctrlWrite ((s.ctrl ||| PIN_CLE) &&& (0xFF ^^^ PIN_nWE)),
        Event.ioWrite c,
        Event.ctrlWrite (((s.ctrl ||| PIN_CLE) &&& (0xFF ^^^ PIN_nWE)) ||| PIN_nWE),
        Event.ctrlWrite ((((s.ctrl ||| PIN_CLE) &&& (0xFF ^^^ PIN_nWE)) ||| PIN_nWE) &&&
          (0xFF ^^^ PIN_CLE))], none⟩ := by
    simp [latch_command, controlbus_pin_set, h1, h2]
  refine ⟨by rw [he], by rw [he], by rw [he]; rfl, ?_⟩
  rw [he]
  intro b hb
  simp only [ctrlWrites, List.filterMap] at hb
  simp only [List.mem_cons, List.not_mem_nil, or_false] at hb
  rcases hb with rfl | rfl | rfl | rfl
  · exact and_or_mask _ _ _ (by decide)
  · rw [and_and_mask _ _ _ (by decide), and_or_mask _ _ _ (by decide)]
  · rw [and_or_mask _ _ _ (by decide), and_and_mask _ _ _ (by decide),
      and_or_mask _ _ _ (by decide)]
  · rw [and_and_mask _ _ _ (by decide), and_or_mask _ _ _ (by decide),
      and_and_mask _ _ _ (by decide), and_or_mask _ _ _ (by decide)]

/-- Claim C7 witness: the framing applied at the idle bring-up state with
the READ ID command byte. -/
theorem C7_latch_command_framing_witness :
    idle_state.ctrl &&& PIN_nCE = 0 ∧ (latch_command idle_state CMD_READID).ret = 0 :=
  ⟨by decide, (C7_latch_command_framing idle_state CMD_READID (by decide) (by decide)).1⟩

end FlashTool

namespace FlashTool

/-- Claim C8: with count 0 the dump driver processes exactly
131072 - start_page pages and the erase driver exactly 2048 - start_block
blocks; with nonzero count exactly count pages/blocks; the program driver
additionally stops at the end of the (skip-adjusted) source, reading
min(count convention, source length) pages. Error-free runs are modelled
with an all-success status oracle. -/
theorem C8_count_zero_convention (s : BusState) (h : good_entry s) :
    (∀ (chip : Nat → Nat → Nat) (start count : Nat),
      (dump_memory chip s start count).pages.length =
        if count = 0 then DEFAULT_PAGE_COUNT - start else count) ∧
    (∀ (junk : Nat) (source : List (List Nat)) (start count skip : Nat),
      (program_file (fun _ _ => 0) junk s source start count skip).read =
        min (if count = 0 then DEFAULT_PAGE_COUNT - start else count)
          ((source.drop skip).length)) ∧
    (∀ (junk start count : Nat),
      (erase_flash (fun _ _ => 0) junk s start count).blocks.length =
        if count = 0 then BLOCK_COUNT - start else count) := by
  refine ⟨?_, ?_, ?_⟩
  · intro chip start count
    simp only [dump_memory]
    rw [dump_loop_spec chip _ s start [] [] h]
    simp
  · intro junk source start count skip
    simp only [program_file]
    have hg := (program_loop_spec junk (source.drop skip) s start 0
      (if count = 0 then DEFAULT_PAGE_COUNT - start else count) 0 0 [] h).2.1
    simpa using hg
  · intro junk start count
    simp only [erase_flash]
    rw [(erase_loop_spec junk _ s start [] h).1]
    simp

/-- Claim C8 witness: the dump count convention applied at the idle state
near the end of the device. -/
theorem C8_count_zero_convention_witness :
    good_entry idle_state ∧
    (dump_memory (fun _ _ => 0) idle_state 131070 0).pages.length =
      (if (0 : Nat) = 0 then DEFAULT_PAGE_COUNT - 131070 else 0) :=
  ⟨Or.inl rfl,
   (C8_count_zero_convention idle_state (Or.inl rfl)).1 (fun _ _ => 0) 131070 0⟩

/-- Claim C9 counterexample: invoking the CLI with -s 0 -b 2 is accepted
(parse_prog_params returns 0, main proceeds to the FTDI bring-up), because
the conflict checks use C truthiness and -s 0 stores the value 0; so the
claim does not hold for every pair of values given to -s and -b. -/
theorem C9_counterexample_start_zero :
    main_arg_gate (params_s_b 0 2) = none := by decide

/-- Claim C9 as amended: for every pair of nonzero parsed values N and M,
invoking the CLI with both -s N and -b M, or with -s N and -E, is rejected
as an argument error: main returns exit code 1 before any FTDI/GPIO call. -/
theorem C9_arg_conflicts_amended (N M : Int) (hN : N ≠ 0) (hM : M ≠ 0) :
    main_arg_gate (params_s_b N M) = some 1 ∧
    main_arg_gate (params_s_E N) = some 1 := by
  constructor <;>
    simp [main_arg_gate, parse_validate, params_s_b, params_s_E, default_params, hN, hM]

/-- Claim C9 witness: the conflict rejection at -s 10 -b 2 and -s 10 -E. -/
theorem C9_arg_conflicts_witness :
    main_arg_gate (params_s_b 10 2) = some 1 ∧
    main_arg_gate (params_s_E 10) = some 1 :=
  C9_arg_conflicts_amended 10 2 (by decide) (by decide)

/-- Claim C10: the three host-to-chip latch primitives never touch the
I/O-port direction; latch_register flips it to input and, whenever its
precondition check passes, restores it to output before returning (on a
failed check it does nothing); the bring-up performs the one-shot
output/input/output wiring-sanity flip; and each command sequence invoked
from a driver entry state returns with the direction at output, its only
all-input window being the register-read loop (one input/output pair of
direction events per sequence). -/
theorem C10_io_direction_invariant :
    (∀ (s : BusState) (c : Nat),
      ((latch_command s c).s).dir = s.dir ∧ dirEvents (latch_command s c).tr = []) ∧
    (∀ (s : BusState) (a : List Nat),
      ((latch_address s a).s).dir = s.dir ∧ dirEvents (latch_address s a).tr = []) ∧
    (∀ (s : BusState) (d : List Nat),
      ((latch_data_out s d).s).dir = s.dir ∧ dirEvents (latch_data_out s d).tr = []) ∧
    (∀ (s : BusState) (sample : Nat → Nat) (n : Nat),
      ((latch_register s sample n).ret = 0 →
        ((latch_register s sample n).s).dir = IODir.out ∧
        dirEvents (latch_register s sample n).tr = [IODir.input, IODir.out]) ∧
      ((latch_register s sample n).ret ≠ 0 →
        (latch_register s sample n).s = s ∧ (latch_register s sample n).tr = [])) ∧
    dirEvents main_bringup.2 = [IODir.out, IODir.input, IODir.out] ∧
    (∀ (s : BusState) (sample : Nat → Nat), good_entry s →
      ((read_id s sample).s).dir = IODir.out ∧
      dirEvents (read_id s sample).tr = [IODir.input, IODir.out]) ∧
    (∀ (s : BusState) (sample : Nat → Nat) (page : Nat), good_entry s →
      ((read_page s sample page).s).dir = IODir.out ∧
      dirEvents (read_page s sample page).tr = [IODir.input, IODir.out]) ∧
    (∀ (s : BusState) (sample : Nat → Nat) (junk page : Nat) (data : List Nat),
      good_entry s →
      ((program_page s sample junk page data).s).dir = IODir.out ∧
      dirEvents (program_page s sample junk page data).tr = [IODir.input, IODir.out]) ∧
    (∀ (s : BusState) (sample : Nat → Nat) (junk block : Nat), good_entry s →
      ((erase_block s sample junk block).s).dir = IODir.out ∧
      dirEvents (erase_block s sample junk block).tr = [IODir.input, IODir.out]) := by
  refine ⟨?_, ?_, ?_, ?_, by decide, ?_, ?_, ?_, ?_⟩
  · intro s c
    unfold latch_command
    split_ifs <;>
      simp [controlbus_pin_set, dirEvents_cons_ctrlWrite, dirEvents_cons_ioWrite,
        dirEvents_nil]
  · intro s a
    unfold latch_address
    split_ifs <;>
      simp [controlbus_pin_set, write_loop_dir, write_loop_dirEvents, dirEvents_append,
        dirEvents_cons_ctrlWrite, dirEvents_cons_ioWrite, dirEvents_nil]
  · intro s d
    unfold latch_data_out
    simp [write_loop_dir, write_loop_dirEvents]
  · intro s sample n
    unfold latch_register
    split_ifs <;>
      simp [read_loop_dir, read_loop_dirEvents, dirEvents_append, dirEvents_cons_setDir,
        dirEvents_nil, EXIT_FAILURE]
  · intro s sample h
    exact ⟨(read_id_spec s sample h).2.2.1, (read_id_spec s sample h).2.2.2⟩
  · intro s sample page h
    exact ⟨(read_page_spec s sample page h).2.2.1, (read_page_spec s sample page h).2.2.2⟩
  · intro s sample junk page data h
    exact ⟨(program_page_spec s sample junk page data h).2.2.2.1,
      (program_page_spec s sample junk page data h).2.2.2.2⟩
  · intro s sample junk block h
    exact ⟨(erase_block_spec s sample junk block h).2.2.2.1,
      (erase_block_spec s sample junk block h).2.2.2.2⟩

/-- Claim C10 witness: the read-ID sequence from the idle state returns
with the I/O direction at output. -/
theorem C10_io_direction_invariant_witness :
    good_entry idle_state ∧ ((read_id idle_state (fun _ => 0)).s).dir = IODir.out :=
  ⟨Or.inl rfl,
   (C10_io_direction_invariant.2.2.2.2.2.1 idle_state (fun _ => 0) (Or.inl rfl)).1⟩

end FlashTool
